import Mathlib

/-!
# go-ciscoasa: extended ACL and physical interface operations

A shallow embedding of `ciscoasa/objects_extendedacls.go` and
`ciscoasa/interfaces_physical.go`.

The two files use collaborators that are declared elsewhere in the package
(`newRequest`, `do`, `objectFromAddress`, `objectFromService`,
`idFromResponse`) and types declared elsewhere (`RangeInfo`, `AddressObject`,
`ServiceObject`, `IPAddress`, `IPv6Info`, the HTTP request and response).
They are parameters of the embedding: `Sig` carries the types, `Env` the
collaborators.  Collaborators may be stateful, so every call threads a world
state; every call is also appended to a log, which is how "no request is
sent" and "exactly one request" are stated.

A Go `(value, error)` pair whose value is ignored when the error is non-nil
is an `Except`; a pair that is handed on as it is stays a pair with an
`Option` error (`none` is the nil error).  A Go pointer is an `Option`.
-/

namespace Ciscoasa

/-! ## Data model -/

/-- Go `int` on a 64-bit target. -/
def GoInt : Type := { n : Int // -9223372036854775808 ≤ n ∧ n ≤ 9223372036854775807 }

/-- The zero value of `int`. -/
def GoInt.zero : GoInt := ⟨0, by decide⟩

/-- Types of the package that the two source files use but do not declare. -/
structure Sig where
  /-- Go `error` values (non-nil). -/
  Err : Type
  AddressObject : Type
  ServiceObject : Type
  RangeInfo : Type
  /-- The zero value of `RangeInfo`. -/
  rangeInfoZero : RangeInfo
  IPAddress : Type
  IPv6Info : Type
  /-- The `*http.Request` built by `newRequest`. -/
  Request : Type
  /-- The `*http.Response` returned by `do`. -/
  Response : Type
  /-- State of the collaborators (connection, remote appliance). -/
  World : Type

/-- ExtendedACLObject represents an access control list object. -/
structure ExtendedACLObject where
  Name : String := ""
  Kind : String := ""
  ObjectID : String := ""
  SelfLink : String := ""

/-- ExtendedACLObjectCollection represents a collection of access control list objects. -/
structure ExtendedACLObjectCollection (T : Sig) where
  RangeInfo : T.RangeInfo := T.rangeInfoZero
  Items : Option (List (Option ExtendedACLObject)) := none
  Kind : String := ""
  SelfLink : String := ""

/-- RuleLogging represents the rule logging settings. -/
structure RuleLogging where
  LogStatus : String := ""
  LogInterval : GoInt := GoInt.zero

/-- ExtendedACEObject represents an access control element object. -/
structure ExtendedACEObject (T : Sig) where
  SrcAddress : Option T.AddressObject := none
  SrcService : Option T.ServiceObject := none
  DstAddress : Option T.AddressObject := none
  DstService : Option T.ServiceObject := none
  RuleLogging : Option RuleLogging := none
  Position : GoInt := GoInt.zero
  Permit : Bool := false
  Active : Bool := false
  IsAccessRule : Bool := false
  Remarks : Option (List String) := none
  Kind : String := ""
  ObjectID : String := ""
  SelfLink : String := ""

/-- ExtendedACEObjectCollection represents a collection of access control element objects. -/
structure ExtendedACEObjectCollection (T : Sig) where
  RangeInfo : T.RangeInfo := T.rangeInfoZero
  Items : Option (List (Option (ExtendedACEObject T))) := none
  Kind : String := ""
  SelfLink : String := ""

/-- PhysicalInterface represents an interface. -/
structure PhysicalInterface (T : Sig) where
  HardwareID : String := ""
  InterfaceDesc : String := ""
  ChannelGroupID : String := ""
  ChannelGroupMode : String := ""
  Duplex : String := ""
  FlowcontrolOn : Bool := false
  FlowcontrolHigh : GoInt := GoInt.zero
  FlowcontrolLow : GoInt := GoInt.zero
  FlowcontrolPeriod : GoInt := GoInt.zero
  ForwardTrafficCX : Bool := false
  ForwardTrafficSFR : Bool := false
  LacpPriority : GoInt := GoInt.zero
  ActiveMacAddress : String := ""
  StandByMacAddress : String := ""
  ManagementOnly : Bool := false
  Mtu : GoInt := GoInt.zero
  Name : String := ""
  SecurityLevel : GoInt := GoInt.zero
  Shutdown : Bool := false
  Speed : String := ""
  IPAddress : Option T.IPAddress := none
  Ipv6Info : Option T.IPv6Info := none
  Kind : String := ""
  ObjectID : String := ""
  SelfLink : String := ""

/-- PhysicalInterfaceCollection represents a collection of physical interfaces. -/
structure PhysicalInterfaceCollection (T : Sig) where
  RangeInfo : T.RangeInfo := T.rangeInfoZero
  Items : Option (List (Option (PhysicalInterface T))) := none
  Kind : String := ""
  SelfLink : String := ""

/-! ## Collaborators -/

/-- What the second argument of `do` points to: nothing (`nil`) or one of the
four structures the operations decode into. -/
inductive TargetKind where
  | nil
  | physicalInterfaces
  | extendedACLs
  | extendedACEs
  | extendedACE

/-- The structure a target of a given kind points to. -/
def TargetKind.Carrier (T : Sig) : TargetKind → Type
  | .nil => Unit
  | .physicalInterfaces => PhysicalInterfaceCollection T
  | .extendedACLs => ExtendedACLObjectCollection T
  | .extendedACEs => ExtendedACEObjectCollection T
  | .extendedACE => ExtendedACEObject T

/-- What a call `resp, err := s.do(req, v)` leaves behind: the response, the
error, and the contents of the structure `v` points to after the call. -/
structure DoResult (T : Sig) (k : TargetKind) where
  resp : T.Response
  err : Option T.Err
  out : k.Carrier T

/-- The collaborators of the two source files. -/
structure Env (T : Sig) where
  objectFromAddress : String → T.World → Except T.Err (Option T.AddressObject) × T.World
  objectFromService : String → T.World → Except T.Err (Option T.ServiceObject) × T.World
  newRequest : String → String → Option (ExtendedACEObject T) → T.World →
    Except T.Err T.Request × T.World
  doReq : (k : TargetKind) → T.Request → k.Carrier T → T.World → DoResult T k × T.World
  idFromResponse : T.Response → String × Option T.Err

/-- One call to a collaborator, with its arguments and what it returned. -/
inductive Event (T : Sig) where
  | objectFromAddress (name : String) (res : Except T.Err (Option T.AddressObject))
  | objectFromService (name : String) (res : Except T.Err (Option T.ServiceObject))
  | newRequest (method path : String) (body : Option (ExtendedACEObject T))
      (res : Except T.Err T.Request)
  | doReq (k : TargetKind) (req : T.Request) (v : k.Carrier T) (err : Option T.Err)
  | idFromResponse (resp : T.Response)

/-- State of a run: the collaborators' world and the calls made so far. -/
structure Run (T : Sig) where
  world : T.World
  log : List (Event T)

variable {T : Sig}

set_option linter.unusedVariables false

/-- The call `s.Objects.objectFromAddress(name)`. -/
def objectFromAddress (env : Env T) (name : String) (s : Run T) :
    Except T.Err (Option T.AddressObject) × Run T :=
  let r := env.objectFromAddress name s.world
  (r.1, ⟨r.2, s.log ++ [.objectFromAddress name r.1]⟩)

/-- The call `s.Objects.objectFromService(name)`. -/
def objectFromService (env : Env T) (name : String) (s : Run T) :
    Except T.Err (Option T.ServiceObject) × Run T :=
  let r := env.objectFromService name s.world
  (r.1, ⟨r.2, s.log ++ [.objectFromService name r.1]⟩)

/-- The call `s.newRequest(method, path, body)`. -/
def newRequest (env : Env T) (method path : String) (body : Option (ExtendedACEObject T))
    (s : Run T) : Except T.Err T.Request × Run T :=
  let r := env.newRequest method path body s.world
  (r.1, ⟨r.2, s.log ++ [.newRequest method path body r.1]⟩)

/-- The call `s.do(req, v)`: the one place where an HTTP request is issued. -/
def doReq (env : Env T) (k : TargetKind) (req : T.Request) (v : k.Carrier T) (s : Run T) :
    DoResult T k × Run T :=
  let r := env.doReq k req v s.world
  (r.1, ⟨r.2, s.log ++ [.doReq k req v r.1.err]⟩)

/-- The call `idFromResponse(resp)`. -/
def idFromResponse (env : Env T) (resp : T.Response) (s : Run T) :
    (String × Option T.Err) × Run T :=
  (env.idFromResponse resp, ⟨s.world, s.log ++ [.idFromResponse resp]⟩)

/-! ## Operations -/

/-- ListPhysicalInterfaces returns a collection of interfaces. -/
def ListPhysicalInterfaces (env : Env T) (s : Run T) :
    (Option (PhysicalInterfaceCollection T) × Option T.Err) × Run T :=
  let u := "/api/interfaces/physical"
  match newRequest env "GET" u none s with
  | (.error err, s) => ((none, some err), s)
  | (.ok req, s) =>
    let e : PhysicalInterfaceCollection T := {}
    match doReq env .physicalInterfaces req e s with
    | (r, s) => ((some r.out, r.err), s)

/-- ListExtendedACLs returns a collection of access control list objects. -/
def ListExtendedACLs (env : Env T) (s : Run T) :
    (Option (ExtendedACLObjectCollection T) × Option T.Err) × Run T :=
  let u := "/api/objects/extendedacls"
  match newRequest env "GET" u none s with
  | (.error err, s) => ((none, some err), s)
  | (.ok req, s) =>
    let e : ExtendedACLObjectCollection T := {}
    match doReq env .extendedACLs req e s with
    | (r, s) => ((some r.out, r.err), s)

/-- ListExtendedACLACEs returns a collection of access control element objects. -/
def ListExtendedACLACEs (env : Env T) (aclName : String) (s : Run T) :
    (Option (ExtendedACEObjectCollection T) × Option T.Err) × Run T :=
  let u := "/api/objects/extendedacls/" ++ aclName ++ "/aces"
  match newRequest env "GET" u none s with
  | (.error err, s) => ((none, some err), s)
  | (.ok req, s) =>
    let e : ExtendedACEObjectCollection T := {}
    match doReq env .extendedACEs req e s with
    | (r, s) => ((some r.out, r.err), s)

/-- CreateExtendedACLACE creates an access control element. -/
def CreateExtendedACLACE (env : Env T) (aclName src srcService dst dstService : String)
    (active permit : Bool) (s : Run T) : (String × Option T.Err) × Run T :=
  let u := "/api/objects/extendedacls/" ++ aclName ++ "/aces"
  let e : ExtendedACEObject T := { Active := active, Permit := permit, Kind := "object#ExtendedACE" }
  match objectFromAddress env src s with
  | (.error err, s) => (("", some err), s)
  | (.ok a, s) =>
    let e := { e with SrcAddress := a }
    match objectFromService env srcService s with
    | (.error err, s) => (("", some err), s)
    | (.ok a, s) =>
      let e := { e with SrcService := a }
      match objectFromAddress env dst s with
      | (.error err, s) => (("", some err), s)
      | (.ok a, s) =>
        let e := { e with DstAddress := a }
        match objectFromService env dstService s with
        | (.error err, s) => (("", some err), s)
        | (.ok a, s) =>
          let e := { e with DstService := a }
          match newRequest env "POST" u (some e) s with
          | (.error err, s) => (("", some err), s)
          | (.ok req, s) =>
            match doReq env .nil req () s with
            | (⟨_, some err, _⟩, s) => (("", some err), s)
            | (⟨resp, none, _⟩, s) => idFromResponse env resp s

/-- GetExtendedACLACE retrieves an access control element. -/
def GetExtendedACLACE (env : Env T) (aclName aceID : String) (s : Run T) :
    (Option (ExtendedACEObject T) × Option T.Err) × Run T :=
  let u := "/api/objects/extendedacls/" ++ aclName ++ "/aces/" ++ aceID
  match newRequest env "GET" u none s with
  | (.error err, s) => ((none, some err), s)
  | (.ok req, s) =>
    let e : ExtendedACEObject T := {}
    match doReq env .extendedACE req e s with
    | (r, s) => ((some r.out, r.err), s)

/-- UpdateExtendedACLACE updates an access control element. -/
def UpdateExtendedACLACE (env : Env T) (aclName aceID src srcService dst dstService : String)
    (active permit : Bool) (s : Run T) : (String × Option T.Err) × Run T :=
  let u := "/api/objects/extendedacls/" ++ aclName ++ "/aces/" ++ aceID
  let e : ExtendedACEObject T := { Active := active, Permit := permit, Kind := "object#ExtendedACE" }
  match objectFromAddress env src s with
  | (.error err, s) => (("", some err), s)
  | (.ok a, s) =>
    let e := { e with SrcAddress := a }
    match objectFromService env src s with
    | (.error err, s) => (("", some err), s)
    | (.ok a, s) =>
      let e := { e with SrcService := a }
      match objectFromAddress env dst s with
      | (.error err, s) => (("", some err), s)
      | (.ok a, s) =>
        let e := { e with DstAddress := a }
        match objectFromService env dstService s with
        | (.error err, s) => (("", some err), s)
        | (.ok a, s) =>
          let e := { e with DstService := a }
          match newRequest env "POST" u (some e) s with
          | (.error err, s) => (("", some err), s)
          | (.ok req, s) =>
            match doReq env .nil req () s with
            | (⟨_, some err, _⟩, s) => (("", some err), s)
            | (⟨resp, none, _⟩, s) => idFromResponse env resp s

/-- DeleteExtendedACLACE deletes an access control element. -/
def DeleteExtendedACLACE (env : Env T) (aclName aceID : String) (s : Run T) :
    Option T.Err × Run T :=
  let u := "/api/objects/extendedacls/" ++ aclName ++ "/aces/" ++ aceID
  match newRequest env "DELETE" u none s with
  | (.error err, s) => (some err, s)
  | (.ok req, s) =>
    match doReq env .nil req () s with
    | (r, s) => (r.err, s)

/-! ## Observations on a log -/

/-- Which collaborator an event is a call to. -/
inductive Tag where
  | objectFromAddress
  | objectFromService
  | newRequest
  | doReq
  | idFromResponse
  deriving DecidableEq, Repr

/-- The collaborator an event is a call to. -/
def Event.tag : Event T → Tag
  | .objectFromAddress _ _ => .objectFromAddress
  | .objectFromService _ _ => .objectFromService
  | .newRequest _ _ _ _ => .newRequest
  | .doReq _ _ _ _ => .doReq
  | .idFromResponse _ => .idFromResponse

/-- The error of a failed object lookup, for an event that is one. -/
def Event.lookupError : Event T → Option T.Err
  | .objectFromAddress _ (.error e) => some e
  | .objectFromService _ (.error e) => some e
  | _ => none

/-- The error of a failed request construction, for an event that is one. -/
def Event.requestError : Event T → Option T.Err
  | .newRequest _ _ _ (.error e) => some e
  | _ => none

/-- Method, path and body of every request built, in order. -/
def built : List (Event T) → List (String × String × Option (ExtendedACEObject T))
  | [] => []
  | .newRequest m p b _ :: l => (m, p, b) :: built l
  | _ :: l => built l

/-- Number of HTTP requests issued: the calls to `do`. -/
def sentCount (l : List (Event T)) : Nat :=
  (l.filter (fun ev => decide (ev.tag = Tag.doReq))).length

/-- A run that starts in world `w` with nothing logged. -/
def Run.start (w : T.World) : Run T := ⟨w, []⟩

/-- State of the concrete appliance. -/
structure DemoWorld where
  /-- Whether the client is configured so that requests can be built. -/
  configured : Bool
  /-- Whether the appliance answers. -/
  online : Bool
  /-- Number of HTTP requests the appliance has received. -/
  served : Nat

/-- Concrete types: errors are messages, address and service objects are their
canonical text, `RangeInfo` is the reported number of items, a request is its
method and path, a response is the identifier it carries. -/
abbrev demoSig : Sig where
  Err := String
  AddressObject := String
  ServiceObject := String
  RangeInfo := Nat
  rangeInfoZero := 0
  IPAddress := String
  IPv6Info := String
  Request := String × String
  Response := String
  World := DemoWorld

/-- What the concrete appliance decodes into a target of each kind: a listing
that reports two items but carries one, whose kind tag is empty. -/
def demoDecode : (k : TargetKind) → k.Carrier demoSig → k.Carrier demoSig
  | .nil, v => v
  | .physicalInterfaces, v =>
    { v with RangeInfo := (2 : Nat), Items := some [some { Name := "inside" }] }
  | .extendedACLs, v =>
    { v with RangeInfo := (2 : Nat), Items := some [some { Name := "test-acl" }] }
  | .extendedACEs, v =>
    { v with RangeInfo := (2 : Nat), Items := some [some { Active := true }] }
  | .extendedACE, v => { v with Active := true, ObjectID := "5" }

/-- Collaborators of the concrete appliance: the name "bogus" resolves to no
object, every other name does. -/
def demoEnv : Env demoSig where
  objectFromAddress name w :=
    if name = "bogus" then (.error "unknown address: bogus", w)
    else (.ok (some ("address:" ++ name)), w)
  objectFromService name w :=
    if name = "bogus" then (.error "unknown service: bogus", w)
    else (.ok (some ("service:" ++ name)), w)
  newRequest method path _ w :=
    if w.configured then (.ok (method, path), w) else (.error "missing base URL", w)
  doReq k _ v w :=
    if w.online then (⟨"1234", none, demoDecode k v⟩, { w with served := w.served + 1 })
    else (⟨"", some "connection refused", v⟩, w)
  idFromResponse resp := (resp, none)

/-- The concrete appliance, configured and answering. -/
def demoUp : DemoWorld := ⟨true, true, 0⟩

/-- The concrete appliance, configured but not answering. -/
def demoDown : DemoWorld := ⟨true, false, 0⟩

/-- A client that cannot build requests. -/
def demoUnconfigured : DemoWorld := ⟨false, true, 0⟩

/-- The body `CreateExtendedACLACE` and `UpdateExtendedACLACE` assemble from
the flags and the four resolved objects. -/
def aceBody (active permit : Bool) (a1 : Option T.AddressObject) (s1 : Option T.ServiceObject)
    (a2 : Option T.AddressObject) (s2 : Option T.ServiceObject) : ExtendedACEObject T :=
  { Active := active, Permit := permit, Kind := "object#ExtendedACE",
    SrcAddress := a1, SrcService := s1, DstAddress := a2, DstService := s2 }

/-- The ways a run of a read operation (list or get) can go: request
construction fails, or the request is built and handed to the transport
together with the empty structure `v`. -/
def ReadRun (env : Env T) (k : TargetKind) (path : String) (v : k.Carrier T) (w : T.World)
    (res : Option (k.Carrier T)) (err : Option T.Err) (log : List (Event T)) : Prop :=
  (∃ e w1, env.newRequest "GET" path none w = (.error e, w1) ∧
      res = none ∧ err = some e ∧ log = [.newRequest "GET" path none (.error e)]) ∨
  (∃ req w1, env.newRequest "GET" path none w = (.ok req, w1) ∧
      res = some (env.doReq k req v w1).1.out ∧ err = (env.doReq k req v w1).1.err ∧
      log = [.newRequest "GET" path none (.ok req), .doReq k req v (env.doReq k req v w1).1.err])

/-- The ways a run of a write operation (create or update) can go, where
`n1 .. n4` are the names handed to the four lookups: one of the lookups
fails, request construction fails, the transport fails, or the identifier is
read from the response. -/
def WriteRun (env : Env T) (n1 n2 n3 n4 path : String) (active permit : Bool)
    (r : (String × Option T.Err) × Run T) : Prop :=
  (∃ e, r.1 = ("", some e) ∧ r.2.log = [.objectFromAddress n1 (.error e)]) ∨
  (∃ a1 e, r.1 = ("", some e) ∧
    r.2.log = [.objectFromAddress n1 (.ok a1), .objectFromService n2 (.error e)]) ∨
  (∃ a1 s1 e, r.1 = ("", some e) ∧
    r.2.log = [.objectFromAddress n1 (.ok a1), .objectFromService n2 (.ok s1),
      .objectFromAddress n3 (.error e)]) ∨
  (∃ a1 s1 a2 e, r.1 = ("", some e) ∧
    r.2.log = [.objectFromAddress n1 (.ok a1), .objectFromService n2 (.ok s1),
      .objectFromAddress n3 (.ok a2), .objectFromService n4 (.error e)]) ∨
  (∃ a1 s1 a2 s2 e, r.1 = ("", some e) ∧
    r.2.log = [.objectFromAddress n1 (.ok a1), .objectFromService n2 (.ok s1),
      .objectFromAddress n3 (.ok a2), .objectFromService n4 (.ok s2),
      .newRequest "POST" path (some (aceBody active permit a1 s1 a2 s2)) (.error e)]) ∨
  (∃ a1 s1 a2 s2 req e, r.1 = ("", some e) ∧
    r.2.log = [.objectFromAddress n1 (.ok a1), .objectFromService n2 (.ok s1),
      .objectFromAddress n3 (.ok a2), .objectFromService n4 (.ok s2),
      .newRequest "POST" path (some (aceBody active permit a1 s1 a2 s2)) (.ok req),
      .doReq .nil req () (some e)]) ∨
  (∃ a1 s1 a2 s2 req resp, r.1 = env.idFromResponse resp ∧
    r.2.log = [.objectFromAddress n1 (.ok a1), .objectFromService n2 (.ok s1),
      .objectFromAddress n3 (.ok a2), .objectFromService n4 (.ok s2),
      .newRequest "POST" path (some (aceBody active permit a1 s1 a2 s2)) (.ok req),
      .doReq .nil req () none, .idFromResponse resp])

/-- A run issues at most one HTTP request; every request it builds has the
given method; a request that is sent was built by `newRequest` with that
method; and when no lookup and no request construction failed, exactly one
request is sent. -/
def OneRequest (method : String) (log : List (Event T)) : Prop :=
  sentCount log ≤ 1 ∧
  (∀ x ∈ built log, x.1 = method) ∧
  (∀ ev ∈ log, ev.tag = Tag.doReq → ∃ p b req, Event.newRequest method p b (.ok req) ∈ log) ∧
  ((∀ ev ∈ log, ev.lookupError = none ∧ ev.requestError = none) → sentCount log = 1)

/-- What a list or get operation returns: nil exactly when request
construction fails; once the transport is reached, the structure handed to it
(as the transport left it) together with the transport's error. -/
def ReadResult (env : Env T) (k : TargetKind) (path : String) (v : k.Carrier T) (w : T.World)
    (res : Option (k.Carrier T)) (err : Option T.Err) : Prop :=
  (res = none ↔ ∃ e w1, env.newRequest "GET" path none w = (.error e, w1)) ∧
  ∀ req w1, env.newRequest "GET" path none w = (.ok req, w1) →
    res = some (env.doReq k req v w1).1.out ∧ err = (env.doReq k req v w1).1.err ∧
    ∀ e, (env.doReq k req v w1).1.err = some e → res ≠ none ∧ err = some e

/-- The ways a run of `DeleteExtendedACLACE` can go. -/
def DeleteRun (env : Env T) (path : String) (w : T.World) (err : Option T.Err)
    (log : List (Event T)) : Prop :=
  (∃ e w1, env.newRequest "DELETE" path none w = (.error e, w1) ∧
      err = some e ∧ log = [.newRequest "DELETE" path none (.error e)]) ∨
  (∃ req w1, env.newRequest "DELETE" path none w = (.ok req, w1) ∧
      err = (env.doReq .nil req () w1).1.err ∧
      log = [.newRequest "DELETE" path none (.ok req),
        .doReq .nil req () (env.doReq .nil req () w1).1.err])

/-- The kind tags of the items of a listing of ACLs (`none` for a nil item). -/
def ExtendedACLObjectCollection.kinds (c : ExtendedACLObjectCollection T) :
    List (Option String) :=
  (c.Items.getD []).map (fun i => i.map (fun o => o.Kind))

/-- The kind tags of the items of a listing of ACEs (`none` for a nil item). -/
def ExtendedACEObjectCollection.kinds (c : ExtendedACEObjectCollection T) :
    List (Option String) :=
  (c.Items.getD []).map (fun i => i.map (fun o => o.Kind))

/-- The kind tags of the items of a listing of interfaces (`none` for a nil item). -/
def PhysicalInterfaceCollection.kinds (c : PhysicalInterfaceCollection T) :
    List (Option String) :=
  (c.Items.getD []).map (fun i => i.map (fun o => o.Kind))

/-- The invariant claimed of a listing: the number of items is the number the
range reports, and every item carries the non-empty kind tag of the resource. -/
def ListingConsistent (reported : Nat) (tag : String) (kinds : List (Option String)) : Prop :=
  reported = kinds.length ∧ tag ≠ "" ∧ ∀ k ∈ kinds, k = some tag

/-! ## JSON shapes declared by the struct tags

The structures are sent and received through Go's `encoding/json`.  What the
struct tags declare is modelled on JSON trees: the field names, their order,
and `omitempty` (a field is left out when it is false, 0, a nil pointer, or an
empty slice or string).  Strings are valid Unicode and numbers are integer
literals.  Decoding is modelled for objects whose members are named exactly by
the struct tags, none of them repeated; on any other document the decoders
below return `none`, as they do where Go's decoder reports an error.  The JSON forms of `RangeInfo`, `AddressObject` and `ServiceObject`
are declared outside the two files and are parameters (`Codec`). -/

/-- Every run of a list or get operation has one of the two shapes of `ReadRun`. -/
theorem ListPhysicalInterfaces_run (env : Env T) (w : T.World) :
    ReadRun env .physicalInterfaces "/api/interfaces/physical" {} w
      (ListPhysicalInterfaces env (Run.start w)).1.1
      (ListPhysicalInterfaces env (Run.start w)).1.2
      (ListPhysicalInterfaces env (Run.start w)).2.log := by
  simp only [ReadRun, ListPhysicalInterfaces, Run.start, newRequest, doReq]
  rcases env.newRequest "GET" _ none w with ⟨e | req, w1⟩
  · simp
  · exact Or.inr ⟨req, w1, by simp⟩

/-- Runs of `ListExtendedACLs`. -/
theorem ListExtendedACLs_run (env : Env T) (w : T.World) :
    ReadRun env .extendedACLs "/api/objects/extendedacls" {} w
      (ListExtendedACLs env (Run.start w)).1.1
      (ListExtendedACLs env (Run.start w)).1.2
      (ListExtendedACLs env (Run.start w)).2.log := by
  simp only [ReadRun, ListExtendedACLs, Run.start, newRequest, doReq]
  rcases env.newRequest "GET" _ none w with ⟨e | req, w1⟩
  · simp
  · exact Or.inr ⟨req, w1, by simp⟩

/-- Runs of `ListExtendedACLACEs`. -/
theorem ListExtendedACLACEs_run (env : Env T) (aclName : String) (w : T.World) :
    ReadRun env .extendedACEs ("/api/objects/extendedacls/" ++ aclName ++ "/aces") {} w
      (ListExtendedACLACEs env aclName (Run.start w)).1.1
      (ListExtendedACLACEs env aclName (Run.start w)).1.2
      (ListExtendedACLACEs env aclName (Run.start w)).2.log := by
  simp only [ReadRun, ListExtendedACLACEs, Run.start, newRequest, doReq]
  rcases env.newRequest "GET" _ none w with ⟨e | req, w1⟩
  · simp
  · exact Or.inr ⟨req, w1, by simp⟩

/-- Runs of `GetExtendedACLACE`. -/
theorem GetExtendedACLACE_run (env : Env T) (aclName aceID : String) (w : T.World) :
    ReadRun env .extendedACE ("/api/objects/extendedacls/" ++ aclName ++ "/aces/" ++ aceID) {} w
      (GetExtendedACLACE env aclName aceID (Run.start w)).1.1
      (GetExtendedACLACE env aclName aceID (Run.start w)).1.2
      (GetExtendedACLACE env aclName aceID (Run.start w)).2.log := by
  simp only [ReadRun, GetExtendedACLACE, Run.start, newRequest, doReq]
  rcases env.newRequest "GET" _ none w with ⟨e | req, w1⟩
  · simp
  · exact Or.inr ⟨req, w1, by simp⟩

/-- Runs of `CreateExtendedACLACE`: the lookups are made on `src`, `srcService`,
`dst`, `dstService`. -/
theorem CreateExtendedACLACE_run (env : Env T)
    (aclName src srcService dst dstService : String) (active permit : Bool) (w : T.World) :
    WriteRun env src srcService dst dstService
      ("/api/objects/extendedacls/" ++ aclName ++ "/aces") active permit
      (CreateExtendedACLACE env aclName src srcService dst dstService active permit
        (Run.start w)) := by
  simp only [WriteRun, aceBody, CreateExtendedACLACE, Run.start, objectFromAddress,
    objectFromService, newRequest, doReq, idFromResponse]
  rcases env.objectFromAddress src w with ⟨e | a1, w1⟩
  · simp
  simp only []
  rcases env.objectFromService srcService w1 with ⟨e | s1, w2⟩
  · simp
  simp only []
  rcases env.objectFromAddress dst w2 with ⟨e | a2, w3⟩
  · simp
  simp only []
  rcases env.objectFromService dstService w3 with ⟨e | s2, w4⟩
  · simp
  simp only []
  rcases env.newRequest "POST" _ _ w4 with ⟨e | req, w5⟩
  · simp
  simp only []
  rcases env.doReq .nil req () w5 with ⟨⟨resp, _ | e, out⟩, w6⟩
  · iterate 6 right
    exact ⟨a1, s1, a2, s2, req, resp, by simp⟩
  · simp

/-- Runs of `UpdateExtendedACLACE`: the lookups are made on `src`, `src`, `dst`,
`dstService`. -/
theorem UpdateExtendedACLACE_run (env : Env T)
    (aclName aceID src srcService dst dstService : String) (active permit : Bool)
    (w : T.World) :
    WriteRun env src src dst dstService
      ("/api/objects/extendedacls/" ++ aclName ++ "/aces/" ++ aceID) active permit
      (UpdateExtendedACLACE env aclName aceID src srcService dst dstService active permit
        (Run.start w)) := by
  simp only [WriteRun, aceBody, UpdateExtendedACLACE, Run.start, objectFromAddress,
    objectFromService, newRequest, doReq, idFromResponse]
  rcases env.objectFromAddress src w with ⟨e | a1, w1⟩
  · simp
  simp only []
  rcases env.objectFromService src w1 with ⟨e | s1, w2⟩
  · simp
  simp only []
  rcases env.objectFromAddress dst w2 with ⟨e | a2, w3⟩
  · simp
  simp only []
  rcases env.objectFromService dstService w3 with ⟨e | s2, w4⟩
  · simp
  simp only []
  rcases env.newRequest "POST" _ _ w4 with ⟨e | req, w5⟩
  · simp
  simp only []
  rcases env.doReq .nil req () w5 with ⟨⟨resp, _ | e, out⟩, w6⟩
  · iterate 6 right
    exact ⟨a1, s1, a2, s2, req, resp, by simp⟩
  · simp

/-- C2: after four successful lookups `CreateExtendedACLACE` builds exactly one
request, a POST to `/api/objects/extendedacls/<aclName>/aces` whose body
carries the kind tag `object#ExtendedACE`, the `active` and `permit`
arguments, the four resolved objects and an empty object id and self link;
and when that request is built and the transport reports no error, the
operation returns what `idFromResponse` returns on the transport's response. -/
theorem CreateExtendedACLACE_request (env : Env T)
    (aclName src srcService dst dstService : String) (active permit : Bool) (w : T.World)
    (a1 a2 : Option T.AddressObject) (s1 s2 : Option T.ServiceObject) (w1 w2 w3 w4 : T.World)
    (h1 : env.objectFromAddress src w = (.ok a1, w1))
    (h2 : env.objectFromService srcService w1 = (.ok s1, w2))
    (h3 : env.objectFromAddress dst w2 = (.ok a2, w3))
    (h4 : env.objectFromService dstService w3 = (.ok s2, w4)) :
    ∃ body : ExtendedACEObject T,
      built (CreateExtendedACLACE env aclName src srcService dst dstService active permit
        (Run.start w)).2.log
        = [("POST", "/api/objects/extendedacls/" ++ aclName ++ "/aces", some body)] ∧
      body.Kind = "object#ExtendedACE" ∧ body.Active = active ∧ body.Permit = permit ∧
      body.ObjectID = "" ∧ body.SelfLink = "" ∧
      body.SrcAddress = a1 ∧ body.SrcService = s1 ∧
      body.DstAddress = a2 ∧ body.DstService = s2 ∧
      ∀ (req : T.Request) (w5 : T.World),
        env.newRequest "POST" ("/api/objects/extendedacls/" ++ aclName ++ "/aces") (some body) w4
          = (.ok req, w5) →
        (env.doReq .nil req () w5).1.err = none →
        (CreateExtendedACLACE env aclName src srcService dst dstService active permit
          (Run.start w)).1 = env.idFromResponse (env.doReq .nil req () w5).1.resp := by
  refine ⟨{ Active := active, Permit := permit, Kind := "object#ExtendedACE",
            SrcAddress := a1, SrcService := s1, DstAddress := a2, DstService := s2 }, ?_⟩
  simp only [CreateExtendedACLACE, Run.start, objectFromAddress, objectFromService, newRequest,
    doReq, idFromResponse, h1, h2, h3, h4, true_and]
  generalize env.newRequest "POST" _ _ w4 = nr
  rcases nr with ⟨e | req, w5⟩
  · simp [built]
  · simp only []
    constructor
    · generalize env.doReq .nil req () w5 = dr
      rcases dr with ⟨⟨resp, _ | e, out⟩, w6⟩ <;> simp [built]
    · intro req1 w51 h hd
      simp only [Prod.mk.injEq, Except.ok.injEq] at h
      obtain ⟨rfl, rfl⟩ := h
      generalize env.doReq .nil req () w5 = dr at hd ⊢
      rcases dr with ⟨⟨resp, _ | e, out⟩, w6⟩
      · simp
      · simp at hd

/-- A write run sends at most one request, a POST. -/
theorem WriteRun.write_one {env : Env T} {n1 n2 n3 n4 path : String}
    {active permit : Bool} {r : (String × Option T.Err) × Run T}
    (h : WriteRun env n1 n2 n3 n4 path active permit r) : OneRequest "POST" r.2.log := by
  rcases h with ⟨e, h1, h2⟩ | ⟨a1, e, h1, h2⟩ | ⟨a1, s1, e, h1, h2⟩ | ⟨a1, s1, a2, e, h1, h2⟩ |
    ⟨a1, s1, a2, s2, e, h1, h2⟩ | ⟨a1, s1, a2, s2, req, e, h1, h2⟩ |
    ⟨a1, s1, a2, s2, req, resp, h1, h2⟩ <;>
  simp [OneRequest, h1, h2, Event.tag, Event.requestError, Event.lookupError, built, sentCount]

/-- Every request a write run builds is a POST to the run's path whose body
is present and carries the kind tag and the two flags; exactly one is built
when no lookup fails. -/
theorem WriteRun.requests {env : Env T} {n1 n2 n3 n4 path : String}
    {active permit : Bool} {r : (String × Option T.Err) × Run T}
    (h : WriteRun env n1 n2 n3 n4 path active permit r) :
    (∀ x ∈ built r.2.log, x.1 = "POST" ∧ x.2.1 = path ∧
      ∃ b, x.2.2 = some b ∧ b.Kind = "object#ExtendedACE" ∧ b.Active = active ∧
        b.Permit = permit ∧ b.ObjectID = "" ∧ b.SelfLink = "") ∧
    ((∀ ev ∈ r.2.log, ev.lookupError = none) → (built r.2.log).length = 1) := by
  rcases h with ⟨e, h1, h2⟩ | ⟨a1, e, h1, h2⟩ | ⟨a1, s1, e, h1, h2⟩ | ⟨a1, s1, a2, e, h1, h2⟩ |
    ⟨a1, s1, a2, s2, e, h1, h2⟩ | ⟨a1, s1, a2, s2, req, e, h1, h2⟩ |
    ⟨a1, s1, a2, s2, req, resp, h1, h2⟩ <;>
  simp [h1, h2, Event.lookupError, built, aceBody]

/-- A read run sends at most one request, a GET. -/
theorem ReadRun.read_one {env : Env T} {k : TargetKind} {path : String}
    {v : k.Carrier T} {w : T.World} {res : Option (k.Carrier T)} {err : Option T.Err}
    {log : List (Event T)} (h : ReadRun env k path v w res err log) :
    OneRequest "GET" log := by
  rcases h with ⟨e, w1, _, h1, h2, h3⟩ | ⟨req, w1, _, h1, h2, h3⟩ <;>
  simp [OneRequest, h3, Event.tag, Event.requestError, Event.lookupError, built, sentCount]

/-- The log of a read run whose request is built. -/
theorem ReadRun.log_eq {env : Env T} {k : TargetKind} {path : String}
    {v : k.Carrier T} {w : T.World} {res : Option (k.Carrier T)} {err : Option T.Err}
    {log : List (Event T)} (h : ReadRun env k path v w res err log)
    {req : T.Request} {w1 : T.World} (hreq : env.newRequest "GET" path none w = (.ok req, w1)) :
    log = [.newRequest "GET" path none (.ok req), .doReq k req v (env.doReq k req v w1).1.err] := by
  rcases h with ⟨e, w2, h0, _, _, _⟩ | ⟨req2, w2, h0, _, _, h3⟩
  · simp [hreq] at h0
  · simp only [hreq, Prod.mk.injEq, Except.ok.injEq] at h0
    obtain ⟨rfl, rfl⟩ := h0
    exact h3

/-- The result of a read run. -/
theorem ReadRun.result {env : Env T} {k : TargetKind} {path : String}
    {v : k.Carrier T} {w : T.World} {res : Option (k.Carrier T)} {err : Option T.Err}
    {log : List (Event T)} (h : ReadRun env k path v w res err log) :
    ReadResult env k path v w res err := by
  rcases h with ⟨e, w1, h0, h1, h2, _⟩ | ⟨req, w1, h0, h1, h2, _⟩
  · simp [ReadResult, h0, h1, h2]
  · simp [ReadResult, h0, h1, h2]

/-- Runs of `DeleteExtendedACLACE`. -/
theorem DeleteExtendedACLACE_run (env : Env T) (aclName aceID : String) (w : T.World) :
    DeleteRun env ("/api/objects/extendedacls/" ++ aclName ++ "/aces/" ++ aceID) w
      (DeleteExtendedACLACE env aclName aceID (Run.start w)).1
      (DeleteExtendedACLACE env aclName aceID (Run.start w)).2.log := by
  simp only [DeleteRun, DeleteExtendedACLACE, Run.start, newRequest, doReq]
  rcases env.newRequest "DELETE" _ none w with ⟨e | req, w1⟩
  · simp
  · exact Or.inr ⟨req, w1, by simp⟩

/-- A delete run sends at most one request, a DELETE. -/
theorem DeleteRun.delete_one {env : Env T} {path : String} {w : T.World}
    {err : Option T.Err} {log : List (Event T)} (h : DeleteRun env path w err log) :
    OneRequest "DELETE" log := by
  rcases h with ⟨e, w1, _, h2, h3⟩ | ⟨req, w1, _, h2, h3⟩ <;>
  simp [OneRequest, h3, Event.tag, Event.requestError, Event.lookupError, built, sentCount]

/-- C3: every request `UpdateExtendedACLACE` builds is a POST (so never a PUT)
to `/api/objects/extendedacls/<aclName>/aces/<aceID>`, which is the path of
`CreateExtendedACLACE` for `aclName` followed by `/` and `aceID`, with a body
whose kind is `object#ExtendedACE`; and when none of its lookups fails it
builds exactly one request. -/
theorem UpdateExtendedACLACE_request (env : Env T)
    (aclName aceID src srcService dst dstService : String) (active permit : Bool)
    (w : T.World) :
    (∀ x ∈ built (UpdateExtendedACLACE env aclName aceID src srcService dst dstService
        active permit (Run.start w)).2.log,
      x.1 = "POST" ∧ x.1 ≠ "PUT" ∧
      x.2.1 = "/api/objects/extendedacls/" ++ aclName ++ "/aces/" ++ aceID ∧
      x.2.1 = ("/api/objects/extendedacls/" ++ aclName ++ "/aces") ++ "/" ++ aceID ∧
      ∃ b, x.2.2 = some b ∧ b.Kind = "object#ExtendedACE") ∧
    ((∀ ev ∈ (UpdateExtendedACLACE env aclName aceID src srcService dst dstService
        active permit (Run.start w)).2.log, ev.lookupError = none) →
      (built (UpdateExtendedACLACE env aclName aceID src srcService dst dstService
        active permit (Run.start w)).2.log).length = 1) := by
  have h := (UpdateExtendedACLACE_run env aclName aceID src srcService dst dstService
    active permit w).requests
  refine ⟨fun x hx => ?_, h.2⟩
  obtain ⟨h1, h2, b, h3, h4, _⟩ := h.1 x hx
  refine ⟨h1, ?_, h2, ?_, b, h3, h4⟩
  · rw [h1]; decide
  · rw [h2]
    simp only [String.append_assoc]
    rfl

/-- C1 (the code departs from the claim): on the concrete appliance, with
`src = "any"` and `srcService = "tcp/80"`, all lookups succeed, yet the body
`UpdateExtendedACLACE` sends has `sourceService` resolved from `src`
(`service:any`) while `CreateExtendedACLACE` sends the one resolved from
`srcService` (`service:tcp/80`); the other three fields agree. -/
theorem UpdateExtendedACLACE_sourceService_from_src :
    built (UpdateExtendedACLACE demoEnv "test-acl" "5" "any" "tcp/80" "any" "any" true true
        (Run.start demoUp)).2.log
      = [("POST", "/api/objects/extendedacls/test-acl/aces/5",
          some (aceBody true true (some "address:any") (some "service:any")
            (some "address:any") (some "service:any")))] ∧
    built (CreateExtendedACLACE demoEnv "test-acl" "any" "tcp/80" "any" "any" true true
        (Run.start demoUp)).2.log
      = [("POST", "/api/objects/extendedacls/test-acl/aces",
          some (aceBody true true (some "address:any") (some "service:tcp/80")
            (some "address:any") (some "service:any")))] ∧
    (demoEnv.objectFromService "tcp/80" demoUp).1 = .ok (some "service:tcp/80") ∧
    (some "service:any" : Option String) ≠ some "service:tcp/80" := by
  refine ⟨?_, ?_, ?_, by decide⟩
  · rfl
  · rfl
  · rfl

/-- C4: `DeleteExtendedACLACE` builds one request, a DELETE without body to
`/api/objects/extendedacls/<aclName>/aces/<aceID>`, the path
`GetExtendedACLACE` and `UpdateExtendedACLACE` build their requests for; it
returns no error exactly when the request is built and the transport reports
none; a failed request construction is returned without anything being sent,
and otherwise the transport's error is returned. -/
theorem DeleteExtendedACLACE_request (env : Env T)
    (aclName aceID src srcService dst dstService : String) (active permit : Bool)
    (w : T.World) :
    built (DeleteExtendedACLACE env aclName aceID (Run.start w)).2.log
      = [("DELETE", "/api/objects/extendedacls/" ++ aclName ++ "/aces/" ++ aceID, none)] ∧
    built (GetExtendedACLACE env aclName aceID (Run.start w)).2.log
      = [("GET", "/api/objects/extendedacls/" ++ aclName ++ "/aces/" ++ aceID, none)] ∧
    (∀ x ∈ built (UpdateExtendedACLACE env aclName aceID src srcService dst dstService
        active permit (Run.start w)).2.log,
      x.2.1 = "/api/objects/extendedacls/" ++ aclName ++ "/aces/" ++ aceID) ∧
    ((DeleteExtendedACLACE env aclName aceID (Run.start w)).1 = none ↔
      ∃ req w1, env.newRequest "DELETE"
          ("/api/objects/extendedacls/" ++ aclName ++ "/aces/" ++ aceID) none w = (.ok req, w1) ∧
        (env.doReq .nil req () w1).1.err = none) ∧
    (∀ e w1, env.newRequest "DELETE"
        ("/api/objects/extendedacls/" ++ aclName ++ "/aces/" ++ aceID) none w = (.error e, w1) →
      (DeleteExtendedACLACE env aclName aceID (Run.start w)).1 = some e ∧
      sentCount (DeleteExtendedACLACE env aclName aceID (Run.start w)).2.log = 0) ∧
    (∀ req w1, env.newRequest "DELETE"
        ("/api/objects/extendedacls/" ++ aclName ++ "/aces/" ++ aceID) none w = (.ok req, w1) →
      (DeleteExtendedACLACE env aclName aceID (Run.start w)).1
        = (env.doReq .nil req () w1).1.err) := by
  refine ⟨?_, ?_, ?_, ?_, ?_, ?_⟩
  · rcases DeleteExtendedACLACE_run env aclName aceID w with
      ⟨e, w1, _, _, h3⟩ | ⟨req, w1, _, _, h3⟩ <;> simp [h3, built]
  · rcases GetExtendedACLACE_run env aclName aceID w with
      ⟨e, w1, _, _, _, h3⟩ | ⟨req, w1, _, _, _, h3⟩ <;> simp [h3, built]
  · intro x hx
    exact ((UpdateExtendedACLACE_run env aclName aceID src srcService dst dstService
      active permit w).requests.1 x hx).2.1
  · rcases DeleteExtendedACLACE_run env aclName aceID w with
      ⟨e, w1, h0, h2, _⟩ | ⟨req, w1, h0, h2, _⟩
    · simp [h0, h2]
    · rw [h0, h2]
      constructor
      · exact fun h => ⟨req, w1, rfl, h⟩
      · rintro ⟨req2, w2, h, hd⟩
        simp only [Prod.mk.injEq, Except.ok.injEq] at h
        obtain ⟨rfl, rfl⟩ := h
        exact hd
  · intro e w1 h
    rcases DeleteExtendedACLACE_run env aclName aceID w with
      ⟨e2, w2, h0, h2, h3⟩ | ⟨req, w2, h0, h2, h3⟩
    · simp only [h, Prod.mk.injEq, Except.error.injEq] at h0
      simp [h2, h3, h0.1, sentCount, Event.tag]
    · simp [h] at h0
  · intro req w1 h
    rcases DeleteExtendedACLACE_run env aclName aceID w with
      ⟨e2, w2, h0, h2, h3⟩ | ⟨req2, w2, h0, h2, h3⟩
    · simp [h] at h0
    · simp only [h, Prod.mk.injEq, Except.ok.injEq] at h0
      obtain ⟨rfl, rfl⟩ := h0
      exact h2

/-- C7: every operation sends at most one HTTP request, of its method (GET for
the four reads, POST for create and update, DELETE for delete), and exactly
one when no lookup and no request construction fails; the four reads build
their GET for the stated path without a body and hand it to the transport
together with a freshly constructed empty structure of the matching type. -/
theorem one_request_per_operation (env : Env T)
    (aclName aceID src srcService dst dstService : String) (active permit : Bool)
    (w : T.World) :
    OneRequest "GET" (ListPhysicalInterfaces env (Run.start w)).2.log ∧
    OneRequest "GET" (ListExtendedACLs env (Run.start w)).2.log ∧
    OneRequest "GET" (ListExtendedACLACEs env aclName (Run.start w)).2.log ∧
    OneRequest "GET" (GetExtendedACLACE env aclName aceID (Run.start w)).2.log ∧
    OneRequest "POST"
      (CreateExtendedACLACE env aclName src srcService dst dstService active permit
        (Run.start w)).2.log ∧
    OneRequest "POST"
      (UpdateExtendedACLACE env aclName aceID src srcService dst dstService active permit
        (Run.start w)).2.log ∧
    OneRequest "DELETE" (DeleteExtendedACLACE env aclName aceID (Run.start w)).2.log ∧
    (∀ req w1, env.newRequest "GET" "/api/interfaces/physical" none w = (.ok req, w1) →
      (ListPhysicalInterfaces env (Run.start w)).2.log
        = [.newRequest "GET" "/api/interfaces/physical" none (.ok req),
           .doReq .physicalInterfaces req ({} : PhysicalInterfaceCollection T)
             (env.doReq .physicalInterfaces req ({} : PhysicalInterfaceCollection T) w1).1.err]) ∧
    (∀ req w1, env.newRequest "GET" "/api/objects/extendedacls" none w = (.ok req, w1) →
      (ListExtendedACLs env (Run.start w)).2.log
        = [.newRequest "GET" "/api/objects/extendedacls" none (.ok req),
           .doReq .extendedACLs req ({} : ExtendedACLObjectCollection T)
             (env.doReq .extendedACLs req ({} : ExtendedACLObjectCollection T) w1).1.err]) ∧
    (∀ req w1, env.newRequest "GET" ("/api/objects/extendedacls/" ++ aclName ++ "/aces") none w
        = (.ok req, w1) →
      (ListExtendedACLACEs env aclName (Run.start w)).2.log
        = [.newRequest "GET" ("/api/objects/extendedacls/" ++ aclName ++ "/aces") none (.ok req),
           .doReq .extendedACEs req ({} : ExtendedACEObjectCollection T)
             (env.doReq .extendedACEs req ({} : ExtendedACEObjectCollection T) w1).1.err]) ∧
    (∀ req w1, env.newRequest "GET"
        ("/api/objects/extendedacls/" ++ aclName ++ "/aces" ++ "/" ++ aceID) none w
        = (.ok req, w1) →
      (GetExtendedACLACE env aclName aceID (Run.start w)).2.log
        = [.newRequest "GET"
             ("/api/objects/extendedacls/" ++ aclName ++ "/aces" ++ "/" ++ aceID) none (.ok req),
           .doReq .extendedACE req ({} : ExtendedACEObject T)
             (env.doReq .extendedACE req ({} : ExtendedACEObject T) w1).1.err]) := by
  have hp : "/api/objects/extendedacls/" ++ aclName ++ "/aces" ++ "/" ++ aceID
      = "/api/objects/extendedacls/" ++ aclName ++ "/aces/" ++ aceID := by
    simp only [String.append_assoc]
    rfl
  refine ⟨(ListPhysicalInterfaces_run env w).read_one,
    (ListExtendedACLs_run env w).read_one,
    (ListExtendedACLACEs_run env aclName w).read_one,
    (GetExtendedACLACE_run env aclName aceID w).read_one,
    (CreateExtendedACLACE_run env aclName src srcService dst dstService active permit
      w).write_one,
    (UpdateExtendedACLACE_run env aclName aceID src srcService dst dstService active permit
      w).write_one,
    (DeleteExtendedACLACE_run env aclName aceID w).delete_one,
    fun req w1 h => (ListPhysicalInterfaces_run env w).log_eq h,
    fun req w1 h => (ListExtendedACLs_run env w).log_eq h,
    fun req w1 h => (ListExtendedACLACEs_run env aclName w).log_eq h, ?_⟩
  rw [hp]
  exact fun req w1 h => (GetExtendedACLACE_run env aclName aceID w).log_eq h

/-- C10: each list and get operation returns nil exactly when request
construction fails; once the transport is reached it returns the structure it
handed to the transport, as the transport left it, together with the
transport's error, so a failed transport or decode yields a non-nil result
and a non-nil error. -/
theorem read_result_nil_iff_request_fails (env : Env T) (aclName aceID : String)
    (w : T.World) :
    ReadResult env .physicalInterfaces "/api/interfaces/physical"
      ({} : PhysicalInterfaceCollection T) w
      (ListPhysicalInterfaces env (Run.start w)).1.1
      (ListPhysicalInterfaces env (Run.start w)).1.2 ∧
    ReadResult env .extendedACLs "/api/objects/extendedacls"
      ({} : ExtendedACLObjectCollection T) w
      (ListExtendedACLs env (Run.start w)).1.1
      (ListExtendedACLs env (Run.start w)).1.2 ∧
    ReadResult env .extendedACEs ("/api/objects/extendedacls/" ++ aclName ++ "/aces")
      ({} : ExtendedACEObjectCollection T) w
      (ListExtendedACLACEs env aclName (Run.start w)).1.1
      (ListExtendedACLACEs env aclName (Run.start w)).1.2 ∧
    ReadResult env .extendedACE
      ("/api/objects/extendedacls/" ++ aclName ++ "/aces/" ++ aceID)
      ({} : ExtendedACEObject T) w
      (GetExtendedACLACE env aclName aceID (Run.start w)).1.1
      (GetExtendedACLACE env aclName aceID (Run.start w)).1.2 :=
  ⟨(ListPhysicalInterfaces_run env w).result, (ListExtendedACLs_run env w).result,
   (ListExtendedACLACEs_run env aclName w).result,
   (GetExtendedACLACE_run env aclName aceID w).result⟩

/-- C2 on the concrete appliance: address "any", service "any", both flags
true, ACL "test-acl". -/
theorem CreateExtendedACLACE_request_witness :
    ∃ body : ExtendedACEObject demoSig,
      built (CreateExtendedACLACE demoEnv "test-acl" "any" "any" "any" "any" true true
        (Run.start demoUp)).2.log
        = [("POST", "/api/objects/extendedacls/test-acl/aces", some body)] ∧
      body.Kind = "object#ExtendedACE" ∧ body.Active = true ∧ body.Permit = true ∧
      (CreateExtendedACLACE demoEnv "test-acl" "any" "any" "any" "any" true true
        (Run.start demoUp)).1 = ("1234", none) := by
  obtain ⟨body, hb, hk, ha, hp, _, _, _, _, _, _, hret⟩ :=
    CreateExtendedACLACE_request demoEnv "test-acl" "any" "any" "any" "any" true true demoUp
      (some "address:any") (some "address:any") (some "service:any") (some "service:any")
      demoUp demoUp demoUp demoUp rfl rfl rfl rfl
  refine ⟨body, hb, hk, ha, hp, ?_⟩
  rw [hret ("POST", "/api/objects/extendedacls/test-acl/aces") demoUp rfl rfl]
  rfl

/-- C3 on the concrete appliance: ACL "test-acl", element "5". -/
theorem UpdateExtendedACLACE_request_witness :
    (built (UpdateExtendedACLACE demoEnv "test-acl" "5" "any" "any" "any" "any" true true
      (Run.start demoUp)).2.log).length = 1 ∧
    ∀ x ∈ built (UpdateExtendedACLACE demoEnv "test-acl" "5" "any" "any" "any" "any" true true
      (Run.start demoUp)).2.log,
      x.1 = "POST" ∧ x.2.1 = "/api/objects/extendedacls/test-acl/aces/5" := by
  have h := UpdateExtendedACLACE_request demoEnv "test-acl" "5" "any" "any" "any" "any"
    true true demoUp
  refine ⟨h.2 ?_, fun x hx => ⟨(h.1 x hx).1, (h.1 x hx).2.2.1⟩⟩
  simp [UpdateExtendedACLACE, Run.start, objectFromAddress, objectFromService, newRequest,
    doReq, idFromResponse, demoEnv, demoUp, Event.lookupError]

/-- C4 on the concrete appliance: deleting element "5" of "test-acl" returns
no error when the appliance answers, and the construction error when the
request cannot be built. -/
theorem DeleteExtendedACLACE_request_witness :
    (DeleteExtendedACLACE demoEnv "test-acl" "5" (Run.start demoUp)).1 = none ∧
    (DeleteExtendedACLACE demoEnv "test-acl" "5" (Run.start demoUnconfigured)).1
      = some "missing base URL" ∧
    (DeleteExtendedACLACE demoEnv "test-acl" "5" (Run.start demoDown)).1
      = some "connection refused" :=
  ⟨(DeleteExtendedACLACE_request demoEnv "test-acl" "5" "any" "any" "any" "any" true true
      demoUp).2.2.2.1.2
      ⟨("DELETE", "/api/objects/extendedacls/test-acl/aces/5"), demoUp, rfl, rfl⟩,
   ((DeleteExtendedACLACE_request demoEnv "test-acl" "5" "any" "any" "any" "any" true true
      demoUnconfigured).2.2.2.2.1 "missing base URL" demoUnconfigured rfl).1,
   (DeleteExtendedACLACE_request demoEnv "test-acl" "5" "any" "any" "any" "any" true true
      demoDown).2.2.2.2.2 ("DELETE", "/api/objects/extendedacls/test-acl/aces/5") demoDown rfl⟩

/-- C7 on the concrete appliance: listing the ACLs sends exactly one request,
a GET to `/api/objects/extendedacls` decoded into an empty collection. -/
theorem one_request_per_operation_witness :
    sentCount (ListExtendedACLs demoEnv (Run.start demoUp)).2.log = 1 ∧
    (ListExtendedACLs demoEnv (Run.start demoUp)).2.log
      = [.newRequest "GET" "/api/objects/extendedacls" none
           (.ok ("GET", "/api/objects/extendedacls")),
         .doReq .extendedACLs ("GET", "/api/objects/extendedacls")
           ({} : ExtendedACLObjectCollection demoSig) none] := by
  have h := one_request_per_operation demoEnv "test-acl" "5" "any" "any" "any" "any"
    true true demoUp
  refine ⟨h.2.1.2.2.2 ?_, h.2.2.2.2.2.2.2.2.1 ("GET", "/api/objects/extendedacls") demoUp rfl⟩
  simp [ListExtendedACLs, Run.start, newRequest, doReq, demoEnv, demoUp, Event.lookupError,
    Event.requestError]

/-- C10 on the concrete appliance: when the appliance does not answer, the
listing of interfaces returns a non-nil collection and the transport error;
when the request cannot be built it returns nil. -/
theorem read_result_nil_iff_request_fails_witness :
    ((ListPhysicalInterfaces demoEnv (Run.start demoDown)).1.1 ≠ none ∧
      (ListPhysicalInterfaces demoEnv (Run.start demoDown)).1.2 = some "connection refused") ∧
    (ListPhysicalInterfaces demoEnv (Run.start demoUnconfigured)).1.1 = none :=
  ⟨((read_result_nil_iff_request_fails demoEnv "test-acl" "5" demoDown).1.2
      ("GET", "/api/interfaces/physical") demoDown rfl).2.2 "connection refused" rfl,
   (read_result_nil_iff_request_fails demoEnv "test-acl" "5" demoUnconfigured).1.1.2
      ⟨"missing base URL", demoUnconfigured, rfl⟩⟩

/-! ### JSON -/

/-- C9 as stated fails: on the concrete appliance each of the three listings
returns without error a collection whose range reports two items while it
carries one, and whose item has an empty kind tag, so the claimed invariant
holds for no tag. -/
theorem listing_not_validated :
    (∃ c, (ListPhysicalInterfaces demoEnv (Run.start demoUp)).1 = (some c, none) ∧
      ∀ tag, ¬ ListingConsistent c.RangeInfo tag c.kinds) ∧
    (∃ c, (ListExtendedACLs demoEnv (Run.start demoUp)).1 = (some c, none) ∧
      ∀ tag, ¬ ListingConsistent c.RangeInfo tag c.kinds) ∧
    (∃ c, (ListExtendedACLACEs demoEnv "test-acl" (Run.start demoUp)).1 = (some c, none) ∧
      ∀ tag, ¬ ListingConsistent c.RangeInfo tag c.kinds) := by
  refine ⟨⟨demoDecode .physicalInterfaces {}, rfl, ?_⟩, ⟨demoDecode .extendedACLs {}, rfl, ?_⟩,
    ⟨demoDecode .extendedACEs {}, rfl, ?_⟩⟩ <;>
  · intro tag h
    exact absurd h.1 (by decide)

/-- C9, amended: a listing that returns a collection without error returns
exactly what the transport decoded into the fresh empty structure, for the
one request it built; so the claimed invariant holds of the returned
collection exactly when it holds of what the transport decoded. -/
theorem listing_returns_what_transport_decoded (env : Env T) (aclName : String)
    (w : T.World) :
    (∀ c, (ListPhysicalInterfaces env (Run.start w)).1 = (some c, none) →
      ∃ req w1, env.newRequest "GET" "/api/interfaces/physical" none w = (.ok req, w1) ∧
        (env.doReq .physicalInterfaces req ({} : PhysicalInterfaceCollection T) w1).1.err
          = none ∧
        c = (env.doReq .physicalInterfaces req ({} : PhysicalInterfaceCollection T) w1).1.out) ∧
    (∀ c, (ListExtendedACLs env (Run.start w)).1 = (some c, none) →
      ∃ req w1, env.newRequest "GET" "/api/objects/extendedacls" none w = (.ok req, w1) ∧
        (env.doReq .extendedACLs req ({} : ExtendedACLObjectCollection T) w1).1.err = none ∧
        c = (env.doReq .extendedACLs req ({} : ExtendedACLObjectCollection T) w1).1.out) ∧
    (∀ c, (ListExtendedACLACEs env aclName (Run.start w)).1 = (some c, none) →
      ∃ req w1, env.newRequest "GET" ("/api/objects/extendedacls/" ++ aclName ++ "/aces")
          none w = (.ok req, w1) ∧
        (env.doReq .extendedACEs req ({} : ExtendedACEObjectCollection T) w1).1.err = none ∧
        c = (env.doReq .extendedACEs req ({} : ExtendedACEObjectCollection T) w1).1.out) := by
  refine ⟨?_, ?_, ?_⟩
  · intro c hc
    rcases ListPhysicalInterfaces_run env w with
      ⟨e, w1, _, h1, _, _⟩ | ⟨req, w1, h0, h1, h2, _⟩
    · rw [hc] at h1; simp at h1
    · rw [hc] at h1 h2
      simp only [Option.some.injEq] at h1
      exact ⟨req, w1, h0, h2.symm, h1⟩
  · intro c hc
    rcases ListExtendedACLs_run env w with
      ⟨e, w1, _, h1, _, _⟩ | ⟨req, w1, h0, h1, h2, _⟩
    · rw [hc] at h1; simp at h1
    · rw [hc] at h1 h2
      simp only [Option.some.injEq] at h1
      exact ⟨req, w1, h0, h2.symm, h1⟩
  · intro c hc
    rcases ListExtendedACLACEs_run env aclName w with
      ⟨e, w1, _, h1, _, _⟩ | ⟨req, w1, h0, h1, h2, _⟩
    · rw [hc] at h1; simp at h1
    · rw [hc] at h1 h2
      simp only [Option.some.injEq] at h1
      exact ⟨req, w1, h0, h2.symm, h1⟩

/-- C9 on the concrete appliance: the listing of ACLs returns the collection
the appliance's answer was decoded into. -/
theorem listing_returns_what_transport_decoded_witness :
    ∃ req w1, demoEnv.newRequest "GET" "/api/objects/extendedacls" none demoUp = (.ok req, w1) ∧
      (demoEnv.doReq .extendedACLs req ({} : ExtendedACLObjectCollection demoSig) w1).1.err
        = none ∧
      demoDecode .extendedACLs {}
        = (demoEnv.doReq .extendedACLs req ({} : ExtendedACLObjectCollection demoSig) w1).1.out :=
  (listing_returns_what_transport_decoded demoEnv "test-acl" demoUp).2.1
    (demoDecode .extendedACLs {}) rfl

end Ciscoasa
